import Mathlib

/-!
Verification of the badminton poll bot (src/badminton.py) against its
natural-language specification.

Modelling conventions of this shallow embedding:
* A calendar date is an `Int` counting days; day `0` is a Monday, so a
  date `d` has Python `date.weekday()` equal to `d % 7` (Monday = 0 …
  Sunday = 6, as in CPython).  `date + timedelta(days = k)` is `d + k`
  and date comparison is integer comparison.
* Machine-level identifiers (`message_id`, bot instances) are `Nat`/`Int`,
  poll ids are `String`, exactly as precise as the claims need.
* External effects (the Telegram API, the pickle files, stdout) are made
  explicit: the controller step is a pure function of the ambient world
  (today's date, the module-global `bot` binding, the outcome of the
  `send_poll` network call, whether `stop_poll` raises, the updates the
  API returns) that yields either a normal result — the new `self.data`,
  the list of gateway calls made, the printed lines — or the Python
  exception that propagated out of `manage_badminton_poll`.
-/

/-- `MONDAY = 7`, the offset constant from badminton.py line 11. -/
def MONDAY : Int := 7

/-- `FRIDAY = 4`, the offset constant from badminton.py line 12. -/
def FRIDAY : Int := 4

/-- Python's `date.weekday()` under the day-count model (Monday = 0). -/
def dateWeekday (d : Int) : Int := d % 7

/-- `get_next_date(weekday, date)` from badminton.py lines 34–39:
`date + timedelta(days=(weekday - date.weekday()))`.  No remainder is
taken, so the offset `weekday - date.weekday()` may be `0`, negative, or
as large as `weekday`. -/
def get_next_date (weekday : Int) (date : Int) : Int :=
  date + (weekday - dateWeekday date)

/-- `PersistentData` (badminton.py lines 42–67): the persisted poll
state; all three fields default to `None`. -/
structure PersistentData where
  poll_message_id : Option Int
  poll_id : Option String
  polling_date : Option Int
deriving DecidableEq

/-- `PersistentData()` with the default arguments: the all-`None` record. -/
def PersistentData.empty : PersistentData := ⟨none, none, none⟩

/-- The spec's invariant on `PersistentData`: the three fields are null
together or non-null together. -/
def fieldsConsistent (d : PersistentData) : Bool :=
  (d.poll_message_id.isNone && d.poll_id.isNone && d.polling_date.isNone) ||
  (d.poll_message_id.isSome && d.poll_id.isSome && d.polling_date.isSome)

/-- A Telegram poll answer as consumed by `evaluate_poll` (badminton.py
lines 116–120): the poll id it answers, the voter's names, and the list
of chosen option indices. -/
structure PollAnswer where
  answer_poll_id : String
  user_first_name : String
  user_last_name : String
  option_ids : List Nat
deriving DecidableEq

/-- A Telegram update record: an optional poll-answer payload and the
update id used by the cursor logic. -/
structure Update where
  poll_answer : Option PollAnswer
  update_id : Int
deriving DecidableEq

/-- A value stored in a pickle file: the empty-dict sentinel that `load`
returns for a missing file, a `PersistentData` record (the `poll.data`
key), or a raw cursor integer (the `update.id` key). -/
inductive Stored where
  | dict
  | pollData (d : PersistentData)
  | cursor (i : Int)
deriving DecidableEq

/-- `load(filename)` from badminton.py lines 22–31: unpickle the file's
content; a `FileNotFoundError` (the file was never written, modelled as
`none`) is caught and `{}` is returned.  The function is total: a missing
key never raises. -/
def load (file : Option Stored) : Stored :=
  match file with
  | some v => v
  | none => Stored.dict

/-- The `self.data` initialisation in `BadmintonBot.__init__`
(badminton.py lines 77–80): load `poll.data`; if the result is a `dict`
(the missing-file sentinel) replace it with a fresh empty
`PersistentData`.  A stored value of any other non-`PersistentData`
type (e.g. a raw integer) passes the `isinstance(_, dict)` check and
leaves `self.data` type-confused, modelled as `none`. -/
def initData (file : Option Stored) : Option PersistentData :=
  match load file with
  | Stored.dict => some PersistentData.empty
  | Stored.pollData d => some d
  | Stored.cursor _ => none

/-- A Python exception escaping the controller step. -/
inductive RunError where
  | nameError
  | stopPollError
  | indexError
deriving DecidableEq

/-- A call made against the Telegram gateway, tagged with the identity of
the `BadmintonBot` instance whose `self.bot` performed it. -/
inductive Effect where
  | sendPoll (byBot : Nat) (question : String)
  | stopPoll (byBot : Nat) (message_id : Option Int)
  | getUpdates (byBot : Nat)
deriving DecidableEq

/-- `send_poll` (badminton.py lines 89–102) with the default options: the
network call either yields a message (carrying `message_id` and
`poll.id`) or raises `socket.timeout`, which is caught; the local
`message_id`/`poll_id` then keep their initial `None`.  The outcome of
the underlying `bot.send_poll` call is the parameter: `some (m, p)` for
a successful send, `none` for a timeout.  The function always returns
the pair and never lets the timeout escape. -/
def send_poll (outcome : Option (Int × String)) : Option Int × Option String :=
  match outcome with
  | some mp => (some mp.1, some mp.2)
  | none => (none, none)

/-- The default `options` list `['Ja', 'Nein']` (badminton.py lines 93–94
and 112–113). -/
def defaultOptions : List String := ["Ja", "Nein"]

/-- The body of the print statement at badminton.py line 120:
`options[poll_answer.option_ids[0]]` formatted into the voter line.
`none` models the `IndexError` raised when `option_ids` is empty or the
chosen index is out of the options' range. -/
def format_vote (options : List String) (pa : PollAnswer) : Option String :=
  match pa.option_ids with
  | [] => none
  | i :: _ =>
    match options.get? i with
    | none => none
    | some opt =>
      some ("User " ++ pa.user_first_name ++ " " ++ pa.user_last_name ++
        " voted " ++ opt)

/-- The scan over updates in `evaluate_poll` (badminton.py lines
116–120): for each update carrying a poll answer whose `poll_id` equals
the stored poll id, print the voter line; an out-of-range access raises
`IndexError` and aborts the loop. -/
def evaluate_loop (pid : Option String) (options : List String) :
    List Update → Except RunError (List String)
  | [] => .ok []
  | u :: rest =>
    match u.poll_answer with
    | none => evaluate_loop pid options rest
    | some pa =>
      if pid = some pa.answer_poll_id then
        match format_vote options pa with
        | none => .error .indexError
        | some line => Except.map (fun ls => line :: ls) (evaluate_loop pid options rest)
      else evaluate_loop pid options rest

/-- `get_latest_updates` (badminton.py lines 137–143), parameterised by
the update list the fetch returned: it reads `updates[-1].update_id`,
which raises `IndexError` on an empty list; on success it yields the new
cursor to store. -/
def get_latest_updates (fetched : List Update) : Except RunError Int :=
  match fetched.getLast? with
  | none => .error .indexError
  | some u => .ok u.update_id

/-- The content of the `update.id` file after `get_latest_updates` runs:
the new cursor when the function completed, the old content when the
`IndexError` aborted it before the `store` call. -/
def cursorAfter (storedCursor : Option Int) (fetched : List Update) : Option Int :=
  match get_latest_updates fetched with
  | .ok i => some i
  | .error _ => storedCursor

/-- The ambient world of one `manage_badminton_poll` invocation: today's
date, the binding of the module-global name `bot` (badminton.py line 154
resolves `bot`, not `self`; `none` = unbound, raising `NameError`), the
outcome of the `bot.send_poll` network call, whether `stop_poll`
succeeds, and the updates `get_updates(-100)` returns. -/
structure World where
  today : Int
  globalBot : Option Nat
  sendOutcome : Option (Int × String)
  stopPollOk : Bool
  fetched : List Update
deriving DecidableEq

/-- The normal result of one controller step: the new `self.data`, the
gateway calls made, and the lines printed to stdout. -/
structure StepResult where
  data : PersistentData
  calls : List Effect
  output : List String
deriving DecidableEq

/-- `manage_badminton_poll` (badminton.py lines 145–169) together with
the inlined `evaluate_poll` (lines 104–120), for the bot instance
`self` in world `w` with current `self.data = data`:
* `polling_date` is `None` → create: compute `get_next_date(MONDAY)`
  from today, resolve the module-global `bot` (a `NameError` if unbound),
  send the poll through that instance, store the returned identifiers
  (possibly `None`) and the target date;
* today equals `get_next_date(FRIDAY, polling_date)` → evaluate:
  `stop_poll` (uncaught on failure), `get_updates(-100)`, print one line
  per matching poll answer, reset `self.data`;
* otherwise → log-only no-op.
An `.ok` result means the final `store(self.data, 'poll.data')` at line
169 ran; an `.error` means the exception propagated before it. -/
def manage_badminton_poll (self : Nat) (w : World) (data : PersistentData) :
    Except RunError StepResult :=
  match data.polling_date with
  | none =>
    match w.globalBot with
    | none => .error .nameError
    | some b =>
      let next_monday := get_next_date MONDAY w.today
      let question := "Abfrage " ++ toString next_monday
      let ids := send_poll w.sendOutcome
      .ok { data := ⟨ids.1, ids.2, some next_monday⟩,
            calls := [Effect.sendPoll b question],
            output := [] }
  | some pd =>
    if w.today = get_next_date FRIDAY pd then
      if w.stopPollOk then
        match evaluate_loop data.poll_id defaultOptions w.fetched with
        | .error e => .error e
        | .ok lines =>
          .ok { data := PersistentData.empty,
                calls := [Effect.stopPoll self data.poll_message_id,
                          Effect.getUpdates self],
                output := lines }
      else .error .stopPollError
    else
      .ok { data := data, calls := [], output := [] }

/-- The content of the `poll.data` file after the step: the new data when
the step completed (the unconditional `store` at line 169), the previous
file content when an exception aborted the step first. -/
def persistedAfter (self : Nat) (w : World) (data persisted : PersistentData) :
    PersistentData :=
  match manage_badminton_poll self w data with
  | .ok r => r.data
  | .error _ => persisted

/-- C1, counterexample: the claimed contract of `get_next_date` fails on
the code.  Day 5 is a Saturday; `get_next_date(FRIDAY, Saturday)` is the
Friday one day earlier, violating `r ≥ d`.  Day 0 is a Monday;
`get_next_date(MONDAY, Monday)` is seven days later, violating
`r - d < 7` (and the same-day return). -/
theorem get_next_date_contract_counterexample :
    ¬ (5 ≤ get_next_date FRIDAY 5) ∧ ¬ (get_next_date MONDAY 0 - 0 < 7) := by
  decide

/-- C1, amended: `get_next_date w d` is exactly
`d + (w - d.weekday())`, a date of weekday `w % 7` lying between
`d + w - 6` and `d + w`; it equals `d` iff `w = d.weekday()`.  For
`MONDAY = 7` it is the strictly next Monday, `1`–`7` days after `d`
(7 when `d` is itself a Monday, never same-day); for `FRIDAY = 4` it is
the Friday of `d`'s Monday-based week, up to 2 days before `d` when `d`
falls on a weekend. -/
theorem get_next_date_characterisation (w d : Int) :
    get_next_date w d = d + (w - dateWeekday d) ∧
    dateWeekday (get_next_date w d) = w % 7 ∧
    d + (w - 6) ≤ get_next_date w d ∧
    get_next_date w d ≤ d + w ∧
    (get_next_date w d = d ↔ w = dateWeekday d) ∧
    d < get_next_date MONDAY d ∧
    get_next_date MONDAY d ≤ d + 7 ∧
    dateWeekday (get_next_date MONDAY d) = 0 ∧
    (dateWeekday d = 0 → get_next_date MONDAY d = d + 7) ∧
    dateWeekday (get_next_date FRIDAY d) = 4 ∧
    d - 2 ≤ get_next_date FRIDAY d ∧
    get_next_date FRIDAY d ≤ d + 4 := by
  unfold get_next_date dateWeekday MONDAY FRIDAY
  omega

/-- C2: on the Friday strictly before a Monday polling date the
controller does NOT evaluate.  `polling_date` is day 7 (a Monday); the
code's trigger `get_next_date(FRIDAY, 7)` is day 11, the Friday AFTER
the event, so on day 4 — the Friday strictly before it — the step takes
the log-only no-op branch: no gateway call, state persisted unchanged.
This contradicts the code's own comments ("the friday before the
event"), which the spec follows. -/
theorem evaluate_trigger_is_friday_after :
    get_next_date FRIDAY 7 = 11 ∧ dateWeekday 11 = FRIDAY ∧ dateWeekday 4 = FRIDAY ∧
    manage_badminton_poll 0 ⟨4, some 0, none, true, []⟩ ⟨some 1, some "p", some 7⟩ =
      .ok ⟨⟨some 1, some "p", some 7⟩, [], []⟩ := by
  refine ⟨rfl, rfl, rfl, ?_⟩
  rfl

/-- C3, counterexample: the create transition with a timed-out
`send_poll` (outcome `none`, so the call returns `(None, None)`) moves
the empty state to one with `polling_date` set but both identifiers
`None`, violating the all-null-or-all-non-null invariant. -/
theorem fieldsConsistent_broken_by_failed_send :
    manage_badminton_poll 0 ⟨0, some 0, none, true, []⟩ PersistentData.empty =
      .ok ⟨⟨none, none, some 7⟩, [Effect.sendPoll 0 "Abfrage 7"], []⟩ ∧
    fieldsConsistent ⟨none, none, some 7⟩ = false := by
  exact ⟨rfl, rfl⟩

/-- C3, amended: the invariant holds for the freshly constructed state,
and is preserved by every completed controller step — unconditionally
for the evaluate and no-op transitions, and for the create transition
provided the `send_poll` network call succeeded; only a create with a
failed send breaks it. -/
theorem fieldsConsistent_preserved (self : Nat) (w : World)
    (data : PersistentData) (r : StepResult)
    (hinv : fieldsConsistent data = true)
    (hsend : data.polling_date = none → w.sendOutcome ≠ none)
    (hstep : manage_badminton_poll self w data = .ok r) :
    fieldsConsistent r.data = true ∧
    initData none = some PersistentData.empty ∧
    fieldsConsistent PersistentData.empty = true := by
  refine ⟨?_, rfl, rfl⟩
  unfold manage_badminton_poll at hstep
  split at hstep
  · rename_i hd
    split at hstep
    · cases hstep
    · rename_i b hb
      cases hs : w.sendOutcome with
      | none => exact absurd hs (hsend hd)
      | some mp =>
        rw [hs] at hstep
        cases hstep
        rfl
  · rename_i pd hd
    split at hstep
    · split at hstep
      · split at hstep
        · cases hstep
        · rename_i lines hloop
          cases hstep
          rfl
      · cases hstep
    · cases hstep
      exact hinv

/-- Witness for `fieldsConsistent_preserved`: a no-op step from a fully
populated state. -/
theorem fieldsConsistent_preserved_witness :
    fieldsConsistent ((⟨⟨some 1, some "p", some 7⟩, [], []⟩ : StepResult)).data = true ∧
    initData none = some PersistentData.empty ∧
    fieldsConsistent PersistentData.empty = true :=
  fieldsConsistent_preserved 0 ⟨0, some 0, some (9, "p"), true, []⟩
    ⟨some 1, some "p", some 7⟩ ⟨⟨some 1, some "p", some 7⟩, [], []⟩
    rfl (fun h => by cases h) rfl

/-- C4: when the `send_poll` network call times out during the create
transition, `send_poll` returns `(None, None)` rather than raising, and
the step still completes: the persisted state has `polling_date` set to
the computed Monday while both identifiers are `None`. -/
theorem create_with_failed_send (self b : Nat) (w : World)
    (data : PersistentData)
    (h0 : data.polling_date = none) (hb : w.globalBot = some b)
    (hs : w.sendOutcome = none) :
    send_poll w.sendOutcome = (none, none) ∧
    manage_badminton_poll self w data =
      .ok ⟨⟨none, none, some (get_next_date MONDAY w.today)⟩,
           [Effect.sendPoll b ("Abfrage " ++ toString (get_next_date MONDAY w.today))],
           []⟩ ∧
    persistedAfter self w data data =
      ⟨none, none, some (get_next_date MONDAY w.today)⟩ := by
  have hstep : manage_badminton_poll self w data =
      .ok ⟨⟨none, none, some (get_next_date MONDAY w.today)⟩,
           [Effect.sendPoll b ("Abfrage " ++ toString (get_next_date MONDAY w.today))],
           []⟩ := by
    unfold manage_badminton_poll
    rw [h0, hb, hs]
    rfl
  refine ⟨by rw [hs]; rfl, hstep, ?_⟩
  unfold persistedAfter
  rw [hstep]

/-- Witness for `create_with_failed_send` on a concrete world. -/
theorem create_with_failed_send_witness :
    send_poll (World.mk 3 (some 5) none true []).sendOutcome = (none, none) ∧
    manage_badminton_poll 0 ⟨3, some 5, none, true, []⟩ PersistentData.empty =
      .ok ⟨⟨none, none, some (get_next_date MONDAY 3)⟩,
           [Effect.sendPoll 5 ("Abfrage " ++ toString (get_next_date MONDAY 3))],
           []⟩ ∧
    persistedAfter 0 ⟨3, some 5, none, true, []⟩ PersistentData.empty PersistentData.empty =
      ⟨none, none, some (get_next_date MONDAY 3)⟩ :=
  create_with_failed_send 0 5 ⟨3, some 5, none, true, []⟩ PersistentData.empty
    rfl rfl rfl

/-- C5: a `stop_poll` failure during the evaluate transition is not
caught: the step aborts with the exception before the state reset and
the final `store`, so the persisted state is unchanged and still shows
the poll as pending. -/
theorem stop_poll_failure_aborts (self : Nat) (w : World)
    (data : PersistentData) (pd : Int)
    (hpd : data.polling_date = some pd)
    (ht : w.today = get_next_date FRIDAY pd)
    (hstop : w.stopPollOk = false) :
    manage_badminton_poll self w data = .error .stopPollError ∧
    persistedAfter self w data data = data ∧
    data.polling_date ≠ none := by
  have hstep : manage_badminton_poll self w data = .error .stopPollError := by
    simp only [manage_badminton_poll, hpd, hstop, Bool.false_eq_true, if_false]
    rw [if_pos ht]
  refine ⟨hstep, ?_, by rw [hpd]; exact fun h => by cases h⟩
  unfold persistedAfter
  rw [hstep]

/-- Witness for `stop_poll_failure_aborts` on a concrete world. -/
theorem stop_poll_failure_aborts_witness :
    manage_badminton_poll 0 ⟨11, some 0, some (9, "q"), false, []⟩
      ⟨some 1, some "p", some 7⟩ = .error .stopPollError ∧
    persistedAfter 0 ⟨11, some 0, some (9, "q"), false, []⟩
      ⟨some 1, some "p", some 7⟩ ⟨some 1, some "p", some 7⟩ =
      ⟨some 1, some "p", some 7⟩ ∧
    (⟨some 1, some "p", some 7⟩ : PersistentData).polling_date ≠ none :=
  stop_poll_failure_aborts 0 ⟨11, some 0, some (9, "q"), false, []⟩
    ⟨some 1, some "p", some 7⟩ 7 rfl rfl rfl

/-- C6: when a poll is pending and today is not the trigger date, the
step makes no gateway call at all and persists the state unchanged. -/
theorem noop_makes_no_calls (self : Nat) (w : World)
    (data : PersistentData) (pd : Int)
    (hpd : data.polling_date = some pd)
    (ht : w.today ≠ get_next_date FRIDAY pd) :
    manage_badminton_poll self w data = .ok ⟨data, [], []⟩ ∧
    persistedAfter self w data data = data := by
  have hstep : manage_badminton_poll self w data = .ok ⟨data, [], []⟩ := by
    simp only [manage_badminton_poll, hpd]
    rw [if_neg ht]
  refine ⟨hstep, ?_⟩
  unfold persistedAfter
  rw [hstep]

/-- Witness for `noop_makes_no_calls`: pending poll for Monday day 7,
today the Tuesday day 1 (the trigger is day 11). -/
theorem noop_makes_no_calls_witness :
    manage_badminton_poll 0 ⟨1, some 0, some (9, "q"), true, []⟩
      ⟨some 1, some "p", some 7⟩ =
      .ok ⟨⟨some 1, some "p", some 7⟩, [], []⟩ ∧
    persistedAfter 0 ⟨1, some 0, some (9, "q"), true, []⟩
      ⟨some 1, some "p", some 7⟩ ⟨some 1, some "p", some 7⟩ =
      ⟨some 1, some "p", some 7⟩ :=
  noop_makes_no_calls 0 ⟨1, some 0, some (9, "q"), true, []⟩
    ⟨some 1, some "p", some 7⟩ 7 rfl (by decide)

/-- C7: whatever the stored update cursor is, an empty fetch makes
`get_latest_updates` fault with the out-of-range access (`updates[-1]`
on an empty list), and the stored cursor is not advanced. -/
theorem get_latest_updates_empty_faults (c : Option Int) :
    get_latest_updates [] = .error .indexError ∧ cursorAfter c [] = c :=
  ⟨rfl, rfl⟩

/-- C8: `load` of a never-written key returns the empty-dict sentinel
and, being a total function (the `FileNotFoundError` is caught), never
raises. -/
theorem load_missing_key_returns_dict (fs : String → Option Stored)
    (k : String) (h : fs k = none) :
    load (fs k) = Stored.dict := by
  rw [h]
  rfl

/-- Witness for `load_missing_key_returns_dict` on the empty filesystem. -/
theorem load_missing_key_returns_dict_witness :
    load ((fun _ => none : String → Option Stored) "poll.data") = Stored.dict :=
  load_missing_key_returns_dict (fun _ => none) "poll.data" rfl

/-- Helper: if the fetched batch contains an update whose poll answer
matches the stored poll id but cannot be formatted (empty `option_ids`
or out-of-range option index), the evaluation scan raises `IndexError`. -/
theorem evaluate_loop_err (pid : Option String) (options : List String)
    (fetched : List Update) (u : Update) (pa : PollAnswer)
    (hu : u ∈ fetched) (hpa : u.poll_answer = some pa)
    (hmatch : pid = some pa.answer_poll_id)
    (hbad : format_vote options pa = none) :
    evaluate_loop pid options fetched = .error .indexError := by
  induction fetched with
  | nil => cases hu
  | cons v rest ih =>
    rcases List.mem_cons.mp hu with rfl | hmem
    · simp only [evaluate_loop, hpa]
      rw [if_pos hmatch, hbad]
    · cases hv : v.poll_answer with
      | none =>
        simp only [evaluate_loop, hv]
        exact ih hmem
      | some pb =>
        by_cases hc : pid = some pb.answer_poll_id
        · cases hfv : format_vote options pb with
          | none =>
            simp only [evaluate_loop, hv]
            rw [if_pos hc, hfv]
          | some line =>
            simp only [evaluate_loop, hv]
            rw [if_pos hc, hfv, ih hmem]
            rfl
        · simp only [evaluate_loop, hv]
          rw [if_neg hc]
          exact ih hmem

/-- C9: during the evaluate transition, `evaluate_poll` indexes
`option_ids[0]` and `options[option_ids[0]]` without a guard, so a
matching poll answer with an empty `option_ids` list (a retracted vote)
or with a chosen index outside the two default options raises
`IndexError`; the step aborts before the state reset, leaving the
persisted state unchanged. -/
theorem bad_poll_answer_aborts_evaluate (self : Nat) (w : World)
    (data : PersistentData) (pd : Int) (u : Update) (pa : PollAnswer)
    (hpd : data.polling_date = some pd)
    (ht : w.today = get_next_date FRIDAY pd)
    (hstop : w.stopPollOk = true)
    (hu : u ∈ w.fetched) (hpa : u.poll_answer = some pa)
    (hmatch : data.poll_id = some pa.answer_poll_id)
    (hbad : pa.option_ids = [] ∨ ∃ i l, pa.option_ids = i :: l ∧ 2 ≤ i) :
    manage_badminton_poll self w data = .error .indexError ∧
    persistedAfter self w data data = data := by
  have hfv : format_vote defaultOptions pa = none := by
    rcases hbad with h | ⟨i, l, hil, hi⟩
    · simp only [format_vote, h]
    · have hn : defaultOptions.get? i = none := by
        rw [List.get?_eq_none]
        simpa [defaultOptions] using hi
      simp only [format_vote, hil, hn]
  have hloop := evaluate_loop_err data.poll_id defaultOptions w.fetched u pa
    hu hpa hmatch hfv
  have hstep : manage_badminton_poll self w data = .error .indexError := by
    simp only [manage_badminton_poll, hpd]
    rw [if_pos ht, hstop, if_pos rfl, hloop]
  refine ⟨hstep, ?_⟩
  unfold persistedAfter
  rw [hstep]

/-- Witness for `bad_poll_answer_aborts_evaluate`: poll pending for
Monday day 7, today the trigger day 11, one matching update whose
`option_ids` is empty. -/
theorem bad_poll_answer_aborts_evaluate_witness :
    manage_badminton_poll 0 ⟨11, some 0, none, true, [⟨some ⟨"p", "A", "B", []⟩, 1⟩]⟩
      ⟨some 1, some "p", some 7⟩ = .error .indexError ∧
    persistedAfter 0 ⟨11, some 0, none, true, [⟨some ⟨"p", "A", "B", []⟩, 1⟩]⟩
      ⟨some 1, some "p", some 7⟩ ⟨some 1, some "p", some 7⟩ =
      ⟨some 1, some "p", some 7⟩ :=
  bad_poll_answer_aborts_evaluate 0
    ⟨11, some 0, none, true, [⟨some ⟨"p", "A", "B", []⟩, 1⟩]⟩
    ⟨some 1, some "p", some 7⟩ 7 ⟨some ⟨"p", "A", "B", []⟩, 1⟩ ⟨"p", "A", "B", []⟩
    rfl rfl rfl (List.Mem.head _) rfl rfl (Or.inl rfl)

/-- C10: the create transition resolves the module-global name `bot`
(badminton.py line 154), not `self`: in state S0 with the global unbound
the step raises `NameError` before any gateway call; with the global
bound to some instance `b`, the poll is sent through `b` even when the
receiver `self` is a different instance. -/
theorem create_uses_global_bot (self : Nat) (w : World) (data : PersistentData)
    (h0 : data.polling_date = none) :
    (w.globalBot = none → manage_badminton_poll self w data = .error .nameError) ∧
    (∀ b, w.globalBot = some b →
      manage_badminton_poll self w data =
        .ok ⟨⟨(send_poll w.sendOutcome).1, (send_poll w.sendOutcome).2,
              some (get_next_date MONDAY w.today)⟩,
             [Effect.sendPoll b ("Abfrage " ++ toString (get_next_date MONDAY w.today))],
             []⟩) := by
  constructor
  · intro hb
    simp only [manage_badminton_poll, h0, hb]
  · intro b hb
    simp only [manage_badminton_poll, h0, hb]

/-- Witness for `create_uses_global_bot`: the receiver is instance 3 but
the global `bot` is instance 5, and the send effect is attributed to 5. -/
theorem create_uses_global_bot_witness :
    manage_badminton_poll 3 ⟨0, some 5, some (9, "p"), true, []⟩ PersistentData.empty =
      .ok ⟨⟨some 9, some "p", some (get_next_date MONDAY 0)⟩,
           [Effect.sendPoll 5 ("Abfrage " ++ toString (get_next_date MONDAY 0))],
           []⟩ :=
  (create_uses_global_bot 3 ⟨0, some 5, some (9, "p"), true, []⟩
    PersistentData.empty rfl).2 5 rfl
